import Mathlib

/-!
Shallow embedding of the Zippy `USurvivalCharacterMovementComponent`
(`src/Source/Zippy/Public/SurvivalCharacterMovementComponent.h`).

The repository ships only the component's header: declarations, doc comments,
the custom-movement enums, the compressed-flag bit values and the default
values of every movement setting.  The method bodies (the `.cpp`) are not part
of `src/`, so every behavioural definition below is modelled from the
specification (`spec.md`) and from the header's own doc comments; such
definitions say so in their doc comment.  Constants, enum layouts and flag
values are taken directly from the header.

Scalars are `ℚ` (the engine's `float` quantities), vectors are triples of `ℚ`,
and machine bytes are `Nat` with explicit masking.  Horizontal speeds are
compared through squared magnitudes so that every definition stays rational
and executable.
-/

namespace Zippy

/-- Primary movement modes of the underlying `UCharacterMovementComponent`
(engine enum `EMovementMode`). -/
inductive EMovementMode
  | MOVE_None
  | MOVE_Walking
  | MOVE_NavWalking
  | MOVE_Falling
  | MOVE_Swimming
  | MOVE_Flying
  | MOVE_Custom
  deriving DecidableEq, Repr

/-- Custom movement modes, from the header's `ECustomMovementMode`
(`CMOVE_None`, `CMOVE_Slide`, `CMOVE_Prone`, `CMOVE_WallRun`, `CMOVE_Hang`,
`CMOVE_Climb`; `CMOVE_MAX` is a bound marker, not a state). -/
inductive ECustomMovementMode
  | CMOVE_None
  | CMOVE_Slide
  | CMOVE_Prone
  | CMOVE_WallRun
  | CMOVE_Hang
  | CMOVE_Climb
  deriving DecidableEq, Repr

open EMovementMode ECustomMovementMode

/-! ### Compressed-flag codec

Bit values of the base engine's `FSavedMove_Character` flags (jump, crouch and
the two reserved bits) and of the header's
`FSavedMove_SurvivalCharacter::CompressedFlags`. -/

/-- Engine base flag: jump pressed (bit 0). -/
def FLAG_JumpPressed : Nat := 0x01

/-- Engine base flag: wants to crouch (bit 1). -/
def FLAG_WantsToCrouch : Nat := 0x02

/-- Engine base reserved flag (bit 2). -/
def FLAG_Reserved_1 : Nat := 0x04

/-- Engine base reserved flag (bit 3). -/
def FLAG_Reserved_2 : Nat := 0x08

/-- Header `CompressedFlags`: the player is sprinting. -/
def FLAG_Sprint : Nat := 0x10

/-- Header `CompressedFlags`: the player is dashing. -/
def FLAG_Dash : Nat := 0x20

/-- Header `CompressedFlags`: the player wants to slide. -/
def FLAG_Slide : Nat := 0x40

/-- Header `CompressedFlags`: spare custom flag, currently not used. -/
def FLAG_Custom_3 : Nat := 0x80

/-- Mask of all flag bits with a defined meaning: the four base-integrator
bits plus sprint, dash and slide.  `FLAG_Custom_3` is declared spare and
unused, so it is not part of the defined mask. -/
def definedFlagMask : Nat := 0x7F

/-- Per-tick boolean movement intents carried by the compressed flag byte:
the four base-integrator bits plus the custom sprint/dash/slide bits
(spec §3 `MovementIntent`, wire subset). -/
structure MovementIntent where
  bPressedJump : Bool
  bWantsToCrouch : Bool
  bReserved1 : Bool
  bReserved2 : Bool
  bWantsToSprint : Bool
  bWantsToDash : Bool
  bWantsToSlide : Bool
  deriving DecidableEq, Repr

/-- Whether a flag bit is set in a packed byte. -/
def hasFlag (flags mask : Nat) : Bool := flags &&& mask ≠ 0

/-- Modelled from the spec (§4.1 `decode`) and the header's
`UpdateFromCompressedFlags` doc comment (the `.cpp` body is absent from
`src/`): decodes the packed byte into the boolean intents; any byte is legal,
bits outside the defined mask are ignored. -/
def UpdateFromCompressedFlags (flags : Nat) : MovementIntent where
  bPressedJump := hasFlag flags FLAG_JumpPressed
  bWantsToCrouch := hasFlag flags FLAG_WantsToCrouch
  bReserved1 := hasFlag flags FLAG_Reserved_1
  bReserved2 := hasFlag flags FLAG_Reserved_2
  bWantsToSprint := hasFlag flags FLAG_Sprint
  bWantsToDash := hasFlag flags FLAG_Dash
  bWantsToSlide := hasFlag flags FLAG_Slide

/-- Modelled from the spec (§4.1 `encode`) and the header's
`GetCompressedFlags` doc comment (the `.cpp` body is absent from `src/`):
packs the standard flags plus the custom sprint/dash/slide flags into one
byte. -/
def GetCompressedFlags (i : MovementIntent) : Nat :=
  (if i.bPressedJump then FLAG_JumpPressed else 0) |||
  (if i.bWantsToCrouch then FLAG_WantsToCrouch else 0) |||
  (if i.bReserved1 then FLAG_Reserved_1 else 0) |||
  (if i.bReserved2 then FLAG_Reserved_2 else 0) |||
  (if i.bWantsToSprint then FLAG_Sprint else 0) |||
  (if i.bWantsToDash then FLAG_Dash else 0) |||
  (if i.bWantsToSlide then FLAG_Slide else 0)

/-! ### Saved moves -/

/-- The per-move record of the header's `FSavedMove_SurvivalCharacter`: the
nine custom `Saved_` bit-fields, plus the engine base move's timestamp
(spec §3 `SavedMove`).  Kinematic snapshot fields are irrelevant to move
combination and omitted. -/
structure FSavedMove_SurvivalCharacter where
  Saved_bPressedZippyJump : Bool
  Saved_bWantsToSprint : Bool
  Saved_bWantsToSlide : Bool
  Saved_bWantsToDash : Bool
  Saved_bHadAnimRootMotion : Bool
  Saved_bTransitionFinished : Bool
  Saved_bPrevWantsToCrouch : Bool
  Saved_bWantsToProne : Bool
  Saved_bWallRunIsRight : Bool
  TimeStamp : ℚ
  deriving DecidableEq, Repr

/-- Whether two saved moves carry identical custom intent/flag bits (all nine
`Saved_` bit-fields agree). -/
def sameIntentBits (a b : FSavedMove_SurvivalCharacter) : Bool :=
  a.Saved_bPressedZippyJump == b.Saved_bPressedZippyJump &&
  a.Saved_bWantsToSprint == b.Saved_bWantsToSprint &&
  a.Saved_bWantsToSlide == b.Saved_bWantsToSlide &&
  a.Saved_bWantsToDash == b.Saved_bWantsToDash &&
  a.Saved_bHadAnimRootMotion == b.Saved_bHadAnimRootMotion &&
  a.Saved_bTransitionFinished == b.Saved_bTransitionFinished &&
  a.Saved_bPrevWantsToCrouch == b.Saved_bPrevWantsToCrouch &&
  a.Saved_bWantsToProne == b.Saved_bWantsToProne &&
  a.Saved_bWallRunIsRight == b.Saved_bWallRunIsRight

/-- Modelled from the spec (§4.2 `canCombine`: "true only if both moves carry
identical intent bits, identical custom-mode flags, and
`b.timestamp - a.timestamp <= maxDelta`") and the header's `CanCombineWith`
doc comment (the `.cpp` body is absent from `src/`; the timestamp bound is the
base engine's contribution, here inlined). -/
def CanCombineWith (a newMove : FSavedMove_SurvivalCharacter) (maxDelta : ℚ) : Bool :=
  sameIntentBits a newMove && decide (newMove.TimeStamp - a.TimeStamp ≤ maxDelta)

/-! ### Movement settings

Default values of every movement setting, taken verbatim from the header's
`UPROPERTY` initializers. -/

/-- Header default: maximum sprint speed (cm/s). -/
def MaxSprintSpeed : ℚ := 750

/-- Header default: whether the character may slide off of ledges. -/
def bCanSlideOffOfLedges : Bool := true

/-- Header default: minimum horizontal speed needed to initiate a slide. -/
def MinSlideSpeed : ℚ := 400

/-- Header default: impulse added to the character upon entering a slide. -/
def SlideEnterImpulse : ℚ := 400

/-- Header default: the max speed at which the slide initial impulse is still
applied; above this speed it is not applied. -/
def MaxSlideImpulseSpeed : ℚ := 700

/-- Header default: additional gravity factor pulling down while sliding. -/
def SlideGravityForce : ℚ := 4000

/-- Header default: friction reduction factor during slide. -/
def SlideFrictionFactor : ℚ := 6/100

/-- Header default: braking deceleration while sliding. -/
def BrakingDecelerationSliding : ℚ := 1000

/-- Header default: impulse added when transitioning from slide to prone. -/
def ProneSlideEnterImpulse : ℚ := 300

/-- Header default: maximum speed while prone. -/
def MaxProneSpeed : ℚ := 300

/-- Header default: braking deceleration while proning. -/
def BrakingDecelerationProning : ℚ := 2500

/-- Header default: cooldown duration after dashing on the initiating side. -/
def DashCooldownDuration : ℚ := 1

/-- Header default: cooldown duration for the server to accept a new dash
(slightly shorter than the client's). -/
def AuthDashCooldownDuration : ℚ := 9/10

/-- Header default: maximum forward distance checked for a mantle surface. -/
def MantleMaxDistance : ℚ := 200

/-- Header default: extra vertical reach above capsule half-height. -/
def MantleReachHeight : ℚ := 50

/-- Header default: minimum depth of a mantleable ledge. -/
def MinMantleDepth : ℚ := 30

/-- Header default: minimum angle from vertical for a valid mantle wall. -/
def MantleMinWallSteepnessAngle : ℚ := 75

/-- Header default: maximum angle from vertical allowed for the mantle top
surface. -/
def MantleMaxSurfaceAngle : ℚ := 40

/-- Header default: maximum alignment angle between the character's facing
and the mantle surface normal. -/
def MantleMaxAlignmentAngle : ℚ := 45

/-- Header default: minimum speed required to initiate a wall run. -/
def MinWallRunSpeed : ℚ := 200

/-- Header default: maximum horizontal velocity during a wall run. -/
def MaxWallRunSpeed : ℚ := 800

/-- Header default: maximum upward velocity during a wall run. -/
def MaxVerticalWallRunSpeed : ℚ := 200

/-- Header default: minimum height off the ground to initiate a wall run. -/
def MinWallRunHeight : ℚ := 50

/-- Header default: maximum speed while climbing. -/
def MaxClimbSpeed : ℚ := 300

/-- Header default: braking deceleration while climbing. -/
def BrakingDecelerationClimbing : ℚ := 1000

/-- Header default: forward reach for a climbable surface. -/
def ClimbReachDistance : ℚ := 200

/-! ### Vectors -/

/-- Rational square. -/
def sq (q : ℚ) : ℚ := q * q

/-- A 3-vector over `ℚ`, the embedding of the engine's `FVector`. -/
structure Vec3 where
  x : ℚ
  y : ℚ
  z : ℚ
  deriving DecidableEq, Repr

/-- The zero vector. -/
def Vec3.zero : Vec3 := ⟨0, 0, 0⟩

/-- Componentwise vector addition. -/
def Vec3.add (a b : Vec3) : Vec3 := ⟨a.x + b.x, a.y + b.y, a.z + b.z⟩

/-- Scalar multiple of a vector. -/
def Vec3.scale (c : ℚ) (v : Vec3) : Vec3 := ⟨c * v.x, c * v.y, c * v.z⟩

/-- Scalar multiple of the horizontal components only. -/
def Vec3.scale2D (c : ℚ) (v : Vec3) : Vec3 := ⟨c * v.x, c * v.y, v.z⟩

/-- Squared magnitude of the horizontal (x, y) part: the engine's
`Velocity.SizeSquared2D()`.  All speed thresholds are compared through
squares so the embedding stays rational. -/
def Vec3.sizeSq2D (v : Vec3) : ℚ := v.x * v.x + v.y * v.y

/-- Squared distance between two points. -/
def Vec3.distSq (a b : Vec3) : ℚ :=
  (a.x - b.x) * (a.x - b.x) + (a.y - b.y) * (a.y - b.y) + (a.z - b.z) * (a.z - b.z)

/-! ### World-query (probe) answers

The spec (§5, §6) treats all geometry probes as synchronous, deterministic,
side-effect-free collaborators.  One `ProbeAnswers` value fixes every probe
answer a tick can consume. -/

/-- Geometry reported by the mantle probes (spec §4.5): forward wall hit
distance, wall angle from vertical, top-surface steepness, facing alignment
angle, usable ledge depth, and the height delta used to classify tall vs
short mantles. -/
structure MantleProbe where
  Distance : ℚ
  WallSteepnessAngle : ℚ
  SurfaceAngle : ℚ
  AlignmentAngle : ℚ
  LedgeDepth : ℚ
  HeightDelta : ℚ
  deriving DecidableEq, Repr

/-- Fixed deterministic world-query answers for one tick. -/
structure ProbeAnswers where
  MantleHit : Option MantleProbe
  ClimbableSurface : Bool
  HangPoint : Bool
  FloorBeneath : Bool
  ValidFloor : Bool
  WallSideHit : Option Bool
  HeightAboveGround : ℚ
  ClearanceAbove : Bool
  LedgeAhead : Bool
  deriving DecidableEq, Repr

/-! ### Component state -/

/-- The replay-relevant state of `USurvivalCharacterMovementComponent`: the
active `(MovementMode, CustomMovementMode)` pair, kinematic state, the `Safe_`
intent mirrors, the crouch request, the dash bookkeeping and the clock. -/
structure CharState where
  MovementMode : EMovementMode
  CustomMovementMode : ECustomMovementMode
  Position : Vec3
  Velocity : Vec3
  bWantsToCrouch : Bool
  Safe_bWantsToSprint : Bool
  Safe_bWantsToSlide : Bool
  Safe_bWantsToProne : Bool
  Safe_bWantsToDash : Bool
  Safe_bHadAnimRootMotion : Bool
  Safe_bPrevWantsToCrouch : Bool
  Safe_bTransitionFinished : Bool
  Safe_bWallRunIsRight : Bool
  DashStartTime : ℚ
  Time : ℚ
  deriving DecidableEq, Repr

/-- Header `IsMovementMode`: whether the component is in a given standard
movement mode. -/
def IsMovementMode (s : CharState) (m : EMovementMode) : Bool :=
  decide (s.MovementMode = m)

/-- Header `IsCustomMovementMode`: whether the component is in a given custom
movement mode (which requires the primary mode to be `MOVE_Custom`). -/
def IsCustomMovementMode (s : CharState) (m : ECustomMovementMode) : Bool :=
  decide (s.MovementMode = MOVE_Custom) && decide (s.CustomMovementMode = m)

/-- The base engine's `UCharacterMovementComponent::IsMovingOnGround`: true in
the walking ground modes. -/
def SuperIsMovingOnGround (s : CharState) : Bool :=
  decide (s.MovementMode = MOVE_Walking) || decide (s.MovementMode = MOVE_NavWalking)

/-- Modelled from the spec and the header's `IsMovingOnGround` doc comment
("We treat slide and prone modes as 'on ground' too"; the `.cpp` body is
absent from `src/`): on ground iff the base query holds or the character is in
the Slide or Prone custom modes. -/
def IsMovingOnGround (s : CharState) : Bool :=
  SuperIsMovingOnGround s ||
  IsCustomMovementMode s CMOVE_Slide ||
  IsCustomMovementMode s CMOVE_Prone

/-! ### Mode state machine -/

/-- The base engine's `SetMovementMode`: records the requested pair, with the
engine rule that a custom submode is only recorded when the primary mode is
`MOVE_Custom` (otherwise the submode resets to `CMOVE_None`). -/
def SetMovementMode (s : CharState) (m : EMovementMode)
    (customMode : ECustomMovementMode) : CharState :=
  { s with MovementMode := m,
           CustomMovementMode := if m = MOVE_Custom then customMode else CMOVE_None }

/-- Modelled from the spec (§4.4 slide entry) and the header doc comments of
`EnterSlide` and `MaxSlideImpulseSpeed`: the engine adds an impulse of
magnitude `SlideEnterImpulse` along the horizontal direction of motion; exact
normalization is irrational, so the embedding scales the horizontal velocity
by the fixed factor `1 + SlideEnterImpulse / MaxSlideImpulseSpeed`; what the
spec pins down exactly — the guard on the impulse — lives in `EnterSlide`. -/
def slideImpulseVelocity (v : Vec3) : Vec3 :=
  Vec3.scale2D (1 + SlideEnterImpulse / MaxSlideImpulseSpeed) v

/-- Modelled from the spec (§4.4) and the header's `EnterSlide` doc comment
(the `.cpp` body is absent from `src/`): entering slide forces crouch and adds
the one-time entry impulse only when the pre-entry speed does not exceed
`MaxSlideImpulseSpeed`. -/
def EnterSlide (_PrevMode : EMovementMode) (_PrevCustomMode : ECustomMovementMode)
    (s : CharState) : CharState :=
  { s with bWantsToCrouch := true,
           Velocity :=
             if Vec3.sizeSq2D s.Velocity ≤ sq MaxSlideImpulseSpeed then
               slideImpulseVelocity s.Velocity
             else s.Velocity }

/-- Modelled from the header's `ExitSlide` doc comment: resets the crouch
flag. -/
def ExitSlide (s : CharState) : CharState :=
  { s with bWantsToCrouch := false }

/-- Modelled from the spec (§4.4 prone) and the header's `EnterProne` doc
comment: forces crouch and applies `ProneSlideEnterImpulse` (embedded, like
the slide impulse, as a horizontal scaling) when transitioning from slide. -/
def EnterProne (_PrevMode : EMovementMode) (PrevCustomMode : ECustomMovementMode)
    (s : CharState) : CharState :=
  { s with bWantsToCrouch := true,
           Velocity :=
             if PrevCustomMode = CMOVE_Slide then
               Vec3.scale2D (1 + ProneSlideEnterImpulse / MaxSlideImpulseSpeed) s.Velocity
             else s.Velocity }

/-- Modelled from the header's `ExitProne` doc comment: resets flags (no
mode-field change). -/
def ExitProne (s : CharState) : CharState := s

/-- The `onExit(oldMode)` hook of a mode transition (spec §4.3): runs the
mode-specific exit logic of the mode being left. -/
def exitHook (prev : EMovementMode) (prevCustom : ECustomMovementMode)
    (s : CharState) : CharState :=
  match prev, prevCustom with
  | MOVE_Custom, CMOVE_Slide => ExitSlide s
  | MOVE_Custom, CMOVE_Prone => ExitProne s
  | _, _ => s

/-- The `onEnter(newMode)` hook of a mode transition (spec §4.3): runs the
mode-specific one-time entry side effects for the mode just entered. -/
def enterHook (prev : EMovementMode) (prevCustom : ECustomMovementMode)
    (s : CharState) : CharState :=
  match s.MovementMode, s.CustomMovementMode with
  | MOVE_Custom, CMOVE_Slide => EnterSlide prev prevCustom s
  | MOVE_Custom, CMOVE_Prone => EnterProne prev prevCustom s
  | _, _ => s

/-- Modelled from the spec (§4.3: "Each transition runs an `onExit(oldMode)`
then `onEnter(newMode)` hook") and the header's `OnMovementModeChanged` doc
comment (the `.cpp` body is absent from `src/`). -/
def OnMovementModeChanged (PreviousMovementMode : EMovementMode)
    (PreviousCustomMode : ECustomMovementMode) (s : CharState) : CharState :=
  enterHook PreviousMovementMode PreviousCustomMode
    (exitHook PreviousMovementMode PreviousCustomMode s)

/-- A complete mode change: `SetMovementMode` followed by the
`OnMovementModeChanged` hooks for the pair being left. -/
def ChangeMode (s : CharState) (m : EMovementMode)
    (customMode : ECustomMovementMode) : CharState :=
  OnMovementModeChanged s.MovementMode s.CustomMovementMode
    (SetMovementMode s m customMode)

/-! ### Transition preconditions (spec §4.3) -/

/-- Modelled from the spec (§4.5 `tryMantle` geometry gates) and the header's
`TryMantle` doc comment and mantle-setting defaults (the `.cpp` body is absent
from `src/`): succeeds exactly when the forward probe hits a near-vertical
wall within `MantleMaxDistance` whose angle from vertical lies in
`[MantleMinWallSteepnessAngle, 90]`, the top surface is no steeper than
`MantleMaxSurfaceAngle`, the facing alignment is within
`MantleMaxAlignmentAngle`, and the usable ledge depth is at least
`MinMantleDepth`. -/
def TryMantle (p : ProbeAnswers) : Bool :=
  match p.MantleHit with
  | none => false
  | some hit =>
    decide (hit.Distance ≤ MantleMaxDistance) &&
    decide (MantleMinWallSteepnessAngle ≤ hit.WallSteepnessAngle) &&
    decide (hit.WallSteepnessAngle ≤ 90) &&
    decide (hit.SurfaceAngle ≤ MantleMaxSurfaceAngle) &&
    decide (hit.AlignmentAngle ≤ MantleMaxAlignmentAngle) &&
    decide (MinMantleDepth ≤ hit.LedgeDepth)

/-- Modelled from the spec (§4.3 rule 1: "intent=climb and forward probe finds
a climbable surface and no floor beneath"); per the header's `StartClimb` doc
comment the climb intent is expressed through `bWantsToCrouch` while
airborne. -/
def TryClimbOrHangCond (s : CharState) (p : ProbeAnswers) : Bool :=
  s.bWantsToCrouch && p.ClimbableSurface && !p.FloorBeneath

/-- Modelled from the spec (§4.3 rule 3: falling, above `MinWallRunHeight`,
lateral speed at least `MinWallRunSpeed`, and a qualifying side-wall probe
hit) and the header's `TryWallRun` doc comment. -/
def TryWallRun (s : CharState) (p : ProbeAnswers) : Bool :=
  decide (s.MovementMode = MOVE_Falling) &&
  decide (MinWallRunHeight ≤ p.HeightAboveGround) &&
  decide (sq MinWallRunSpeed ≤ Vec3.sizeSq2D s.Velocity) &&
  p.WallSideHit.isSome

/-- Modelled from the spec (§4.3 rule 4: intent=slide, grounded on a valid
floor, horizontal speed at least `MinSlideSpeed`) and the header's `CanSlide`
doc comment. -/
def CanSlide (s : CharState) (p : ProbeAnswers) : Bool :=
  s.Safe_bWantsToSlide && p.ValidFloor &&
  decide (sq MinSlideSpeed ≤ Vec3.sizeSq2D s.Velocity)

/-- Modelled from the spec (§4.3 rule 5: intent=prone and currently sliding or
walking+crouching) and the header's `CanProne` doc comment. -/
def CanProne (s : CharState) : Bool :=
  s.Safe_bWantsToProne &&
  (IsCustomMovementMode s CMOVE_Slide ||
    (IsMovementMode s MOVE_Walking && s.bWantsToCrouch))

/-! ### Transition outcomes -/

/-- Modelled from the spec (§4.5 `tryHang`/climb entry): enters Hang through a
root-motion transition (velocity zeroed, transition pending) when the probe
found a hang point, otherwise enters Climb. -/
def startClimbOrHang (s : CharState) (p : ProbeAnswers) : CharState :=
  if p.HangPoint then
    { ChangeMode s MOVE_Custom CMOVE_Hang with
        Velocity := Vec3.zero, Safe_bTransitionFinished := false }
  else
    ChangeMode s MOVE_Custom CMOVE_Climb

/-- Modelled from the spec (§4.5): a successful mantle creates a force-driven
move-to-location transition — the mode machine is marked transitioning,
velocity is zeroed, and input-driven integration is suspended (embedded as the
flight mode the engine uses for root-motion transitions). -/
def startMantle (s : CharState) (_p : ProbeAnswers) : CharState :=
  { ChangeMode s MOVE_Flying CMOVE_None with
      Velocity := Vec3.zero, Safe_bTransitionFinished := false }

/-- Modelled from the spec (§4.3 rule 3): enters the WallRun custom mode and
records which side the wall is on. -/
def startWallRun (s : CharState) (p : ProbeAnswers) : CharState :=
  { ChangeMode s MOVE_Custom CMOVE_WallRun with
      Safe_bWallRunIsRight := p.WallSideHit.getD true }

/-- Modelled from the spec (§4.3 rule 4): enters the Slide custom mode (the
entry impulse is applied by the `EnterSlide` hook). -/
def startSlide (s : CharState) (_p : ProbeAnswers) : CharState :=
  ChangeMode s MOVE_Custom CMOVE_Slide

/-- Modelled from the spec (§4.3 rule 5): enters the Prone custom mode. -/
def startProne (s : CharState) (_p : ProbeAnswers) : CharState :=
  ChangeMode s MOVE_Custom CMOVE_Prone

/-- The five mode-transition candidates evaluated before movement. -/
inductive TransitionCandidate
  | climbOrHang
  | mantle
  | wallRun
  | slide
  | prone
  deriving DecidableEq, Repr

/-- The fixed precedence order of spec §4.3. -/
def candidatePrecedence : List TransitionCandidate :=
  [.climbOrHang, .mantle, .wallRun, .slide, .prone]

/-- The precondition of one transition candidate. -/
def candidateCond (c : TransitionCandidate) (s : CharState) (p : ProbeAnswers) : Bool :=
  match c with
  | .climbOrHang => TryClimbOrHangCond s p
  | .mantle => TryMantle p
  | .wallRun => TryWallRun s p
  | .slide => CanSlide s p
  | .prone => CanProne s

/-- The outcome of taking one transition candidate. -/
def applyCandidate (c : TransitionCandidate) (s : CharState) (p : ProbeAnswers) : CharState :=
  match c with
  | .climbOrHang => startClimbOrHang s p
  | .mantle => startMantle s p
  | .wallRun => startWallRun s p
  | .slide => startSlide s p
  | .prone => startProne s p

/-- Modelled from the spec (§4.3: transition candidates are evaluated once per
tick, before the per-mode physics integrator, in the fixed precedence order
hang/climb, mantle, wall-run, slide, prone, base fallback) and the header's
`UpdateCharacterStateBeforeMovement` doc comment (the `.cpp` body is absent
from `src/`). -/
def UpdateCharacterStateBeforeMovement (p : ProbeAnswers) (s : CharState) : CharState :=
  if TryClimbOrHangCond s p then startClimbOrHang s p
  else if TryMantle p then startMantle s p
  else if TryWallRun s p then startWallRun s p
  else if CanSlide s p then startSlide s p
  else if CanProne s then startProne s p
  else s

/-! ### Per-mode physics integrators (spec §4.4)

The spec fixes each integrator's exit conditions exactly but gives its
kinematic update only qualitatively; the updates below are deterministic
rational renderings of those descriptions, and every exit transitions out on
the same tick the precondition is lost, as §4.4 requires. -/

/-- Engine default gravity magnitude (cm/s²). -/
def gravityZ : ℚ := 980

/-- One braking step toward zero for a single velocity component. -/
def brakeComponent (d c : ℚ) : ℚ :=
  if 0 < c then max 0 (c - d) else min 0 (c + d)

/-- Modelled from the spec: braking deceleration applied over one step,
componentwise toward zero. -/
def brakeVelocity (dec dt : ℚ) (v : Vec3) : Vec3 :=
  ⟨brakeComponent (dec * dt) v.x, brakeComponent (dec * dt) v.y, brakeComponent (dec * dt) v.z⟩

/-- Modelled from the spec: caps the horizontal speed at `cap` by scaling the
horizontal components down when the squared speed exceeds `sq cap` (rational
stand-in for exact renormalization). -/
def capSpeed2D (cap : ℚ) (v : Vec3) : Vec3 :=
  if sq cap < Vec3.sizeSq2D v then Vec3.scale2D (sq cap / Vec3.sizeSq2D v) v else v

/-- Modelled from the spec (§4.4 Slide; the `.cpp` body of `PhysSlide` is
absent from `src/`): exits to the base mode on the same tick when the speed
drops below the slide floor threshold or no valid floor remains; when
`bCanSlideOffOfLedges` is false also exits when the floor trace predicts a
ledge ahead; otherwise integrates with reduced friction and added gravity
pull. -/
def PhysSlide (dt : ℚ) (p : ProbeAnswers) (s : CharState) : CharState :=
  if !p.ValidFloor || Vec3.sizeSq2D s.Velocity < sq MinSlideSpeed then
    ChangeMode s MOVE_Walking CMOVE_None
  else if !bCanSlideOffOfLedges && p.LedgeAhead then
    ChangeMode s MOVE_Walking CMOVE_None
  else
    let v1 := Vec3.scale (1 - SlideFrictionFactor * dt) s.Velocity
    let v2 := Vec3.mk v1.x v1.y (v1.z - SlideGravityForce * dt)
    { s with Velocity := v2, Position := Vec3.add s.Position (Vec3.scale dt v2) }

/-- Modelled from the spec (§4.4 Prone; the `.cpp` body of `PhysProne` is
absent from `src/`): exits to walking on the same tick when crouch is released
and there is clearance above; otherwise brakes with
`BrakingDecelerationProning` and caps speed at `MaxProneSpeed`. -/
def PhysProne (dt : ℚ) (p : ProbeAnswers) (s : CharState) : CharState :=
  if !s.bWantsToCrouch && p.ClearanceAbove then
    ChangeMode s MOVE_Walking CMOVE_None
  else
    let v := capSpeed2D MaxProneSpeed (brakeVelocity BrakingDecelerationProning dt s.Velocity)
    { s with Velocity := v, Position := Vec3.add s.Position (Vec3.scale dt v) }

/-- Modelled from the spec (§4.4 Wall-Run; the `.cpp` body of `PhysWallRun` is
absent from `src/`): exits to falling on the same tick when the side probe
loses the wall or the speed drops below `MinWallRunSpeed`; otherwise clamps
horizontal speed at `MaxWallRunSpeed` and vertical speed at
`MaxVerticalWallRunSpeed`. -/
def PhysWallRun (dt : ℚ) (p : ProbeAnswers) (s : CharState) : CharState :=
  if p.WallSideHit.isNone || Vec3.sizeSq2D s.Velocity < sq MinWallRunSpeed then
    ChangeMode s MOVE_Falling CMOVE_None
  else
    let v1 := capSpeed2D MaxWallRunSpeed s.Velocity
    let v2 := Vec3.mk v1.x v1.y (min v1.z MaxVerticalWallRunSpeed)
    { s with Velocity := v2, Position := Vec3.add s.Position (Vec3.scale dt v2) }

/-- Modelled from the spec (§4.4 Climb; the `.cpp` body of `PhysClimb` is
absent from `src/`; per §2 the Hang mode shares this integrator): exits to
falling on the same tick when the forward probe no longer finds a climbable
surface or the climb intent is released; otherwise brakes with
`BrakingDecelerationClimbing` and caps the vertical speed at
`MaxClimbSpeed`. -/
def PhysClimb (dt : ℚ) (p : ProbeAnswers) (s : CharState) : CharState :=
  if !p.ClimbableSurface || !s.bWantsToCrouch then
    ChangeMode s MOVE_Falling CMOVE_None
  else
    let v1 := brakeVelocity BrakingDecelerationClimbing dt s.Velocity
    let v2 := Vec3.mk 0 v1.y (min v1.z MaxClimbSpeed)
    { s with Velocity := v2, Position := Vec3.add s.Position (Vec3.scale dt v2) }

/-- Modelled from the spec (§4.3 rule 6: the base walk/fall integrator is an
external collaborator): a deterministic rational base step — walking keeps the
velocity horizontal, falling accelerates downward by gravity, anything else
integrates position only. -/
def PhysBase (dt : ℚ) (_p : ProbeAnswers) (s : CharState) : CharState :=
  match s.MovementMode with
  | MOVE_Walking =>
    let v := Vec3.mk s.Velocity.x s.Velocity.y 0
    { s with Velocity := v, Position := Vec3.add s.Position (Vec3.scale dt v) }
  | MOVE_Falling =>
    let v := Vec3.mk s.Velocity.x s.Velocity.y (s.Velocity.z - gravityZ * dt)
    { s with Velocity := v, Position := Vec3.add s.Position (Vec3.scale dt v) }
  | _ => { s with Position := Vec3.add s.Position (Vec3.scale dt s.Velocity) }

/-- Modelled from the spec (§9: the `PhysCustom` switch) and the header's
`PhysCustom` doc comment ("we switch on `CustomMovementMode` to call the
appropriate physics function"; the `.cpp` body is absent from `src/`). -/
def PhysCustom (dt : ℚ) (p : ProbeAnswers) (s : CharState) : CharState :=
  match s.CustomMovementMode with
  | CMOVE_None => s
  | CMOVE_Slide => PhysSlide dt p s
  | CMOVE_Prone => PhysProne dt p s
  | CMOVE_WallRun => PhysWallRun dt p s
  | CMOVE_Hang => PhysClimb dt p s
  | CMOVE_Climb => PhysClimb dt p s

/-- The engine's per-tick dispatch: custom modes go through `PhysCustom`,
anything else through the base integrator. -/
def PhysDispatch (dt : ℚ) (p : ProbeAnswers) (s : CharState) : CharState :=
  if s.MovementMode = MOVE_Custom then PhysCustom dt p s else PhysBase dt p s

/-! ### The tick pipeline -/

/-- Modelled from the spec (§4.2 `applyFlags` / §4.7 intent capture): installs
the per-tick wire intents into the component's `Safe_` mirrors and the crouch
request before the tick advances. -/
def applyIntent (i : MovementIntent) (s : CharState) : CharState :=
  { s with Safe_bWantsToSprint := i.bWantsToSprint,
           Safe_bWantsToDash := i.bWantsToDash,
           Safe_bWantsToSlide := i.bWantsToSlide,
           bWantsToCrouch := i.bWantsToCrouch }

/-- Modelled from the header's `OnMovementUpdated` doc comment ("record the
current crouch state ... before finishing the tick"). -/
def OnMovementUpdated (s : CharState) : CharState :=
  { s with Safe_bPrevWantsToCrouch := s.bWantsToCrouch }

/-- One tick's input: the movement intent, the deltaTime, and the fixed
deterministic world-query answers. -/
structure TickInput where
  intent : MovementIntent
  dt : ℚ
  probes : ProbeAnswers
  deriving DecidableEq, Repr

/-- One full tick of the pipeline (spec §4.7, §5): install intents, evaluate
the mode transitions (`UpdateCharacterStateBeforeMovement`), run the per-mode
integrator (`PhysCustom` dispatch or the base integrator), then finish the
tick. -/
def AdvanceTick (inp : TickInput) (s : CharState) : CharState :=
  let s1 := applyIntent inp.intent s
  let s2 := UpdateCharacterStateBeforeMovement inp.probes s1
  let s3 := PhysDispatch inp.dt inp.probes s2
  OnMovementUpdated { s3 with Time := s3.Time + inp.dt }

/-- Advancing a whole sequence of ticks. -/
def RunTicks (ins : List TickInput) (s : CharState) : CharState :=
  ins.foldl (fun st i => AdvanceTick i st) s

/-! ### The tick pipeline as a step relation

`PhysStep` mirrors the `PhysCustom` virtual-dispatch switch case by case;
`TickStep` composes it with the before-movement transition evaluation, and
`TickRun` chains whole input sequences.  Determinism of the pipeline is proved
about these relations. -/

/-- One step of the per-mode physics dispatch, one constructor per case of the
`PhysCustom` switch plus the non-custom base case. -/
inductive PhysStep (dt : ℚ) (p : ProbeAnswers) : CharState → CharState → Prop
  | slide (s : CharState) (h1 : s.MovementMode = MOVE_Custom)
      (h2 : s.CustomMovementMode = CMOVE_Slide) : PhysStep dt p s (PhysSlide dt p s)
  | prone (s : CharState) (h1 : s.MovementMode = MOVE_Custom)
      (h2 : s.CustomMovementMode = CMOVE_Prone) : PhysStep dt p s (PhysProne dt p s)
  | wallRun (s : CharState) (h1 : s.MovementMode = MOVE_Custom)
      (h2 : s.CustomMovementMode = CMOVE_WallRun) : PhysStep dt p s (PhysWallRun dt p s)
  | hang (s : CharState) (h1 : s.MovementMode = MOVE_Custom)
      (h2 : s.CustomMovementMode = CMOVE_Hang) : PhysStep dt p s (PhysClimb dt p s)
  | climb (s : CharState) (h1 : s.MovementMode = MOVE_Custom)
      (h2 : s.CustomMovementMode = CMOVE_Climb) : PhysStep dt p s (PhysClimb dt p s)
  | customNone (s : CharState) (h1 : s.MovementMode = MOVE_Custom)
      (h2 : s.CustomMovementMode = CMOVE_None) : PhysStep dt p s s
  | base (s : CharState) (h1 : s.MovementMode ≠ MOVE_Custom) :
      PhysStep dt p s (PhysBase dt p s)

/-- One step of the full tick pipeline: transition evaluation, then a
`PhysStep`, then tick finalization. -/
inductive TickStep (inp : TickInput) (s : CharState) : CharState → Prop
  | mk (s3 : CharState)
      (hp : PhysStep inp.dt inp.probes
        (UpdateCharacterStateBeforeMovement inp.probes (applyIntent inp.intent s)) s3) :
      TickStep inp s (OnMovementUpdated { s3 with Time := s3.Time + inp.dt })

/-- Advancing an instance through a sequence of tick inputs. -/
inductive TickRun : CharState → List TickInput → CharState → Prop
  | nil (s : CharState) : TickRun s [] s
  | cons {s s' s'' : CharState} {i : TickInput} {is : List TickInput}
      (h1 : TickStep i s s') (h2 : TickRun s' is s'') : TickRun s (i :: is) s''

/-! ### Dash controller (spec §4.6) -/

/-- Outcome of a dash request on the initiating side. -/
inductive DashAttemptResult
  | performed
  | deferredRetry
  deriving DecidableEq, Repr

/-- Modelled from the spec (§4.6 `startDash`) and the header's `StartDash` and
`DashStartTime` doc comments (the `.cpp` body is absent from `src/`): with no
prior dash, or once at least `DashCooldownDuration` has elapsed since the last
dash, the dash executes immediately; while the cooldown is active the input is
not executed now but deferred to a retry timer. -/
def StartDash (now : ℚ) (lastDashStart : Option ℚ) : DashAttemptResult :=
  match lastDashStart with
  | none => .performed
  | some t0 =>
    if DashCooldownDuration ≤ now - t0 then .performed else .deferredRetry

/-- Modelled from the spec (§4.6, §8: the authoritative side accepts a
reported dash once at least `AuthDashCooldownDuration` — intentionally shorter
than the client cooldown — has elapsed since the previous dash). -/
def ServerAcceptsDash (now : ℚ) (lastDashStart : Option ℚ) : Bool :=
  match lastDashStart with
  | none => true
  | some t0 => decide (AuthDashCooldownDuration ≤ now - t0)

/-! ### Reconciler (spec §4.7) -/

/-- The diagnostic counters of the component (header: `TickCount`,
`CorrectionCount`, `AccumulatedClientLocationError`). -/
structure SimulationStats where
  TickCount : ℤ
  CorrectionCount : ℤ
  AccumulatedClientLocationError : ℚ
  deriving DecidableEq, Repr

/-- Modelled from the spec (§4.7) and the header's `ServerCheckClientError`
doc comment (the `.cpp` body is absent from `src/`): an error is flagged
exactly when the server-replayed position diverges from the client-reported
position by more than the epsilon threshold (compared through squares). -/
def ServerCheckClientError (epsilonSq : ℚ) (serverLoc clientLoc : Vec3) : Bool :=
  decide (epsilonSq < Vec3.distSq serverLoc clientLoc)

/-- Modelled from the spec (§4.7: "if divergence exceeds an epsilon, increment
the correction counter, accumulate the error magnitude for diagnostics, and
emit a correction"): returns whether a correction is emitted together with the
updated counters. -/
def ReconcileMove (epsilonSq : ℚ) (serverLoc clientLoc : Vec3)
    (stats : SimulationStats) : Bool × SimulationStats :=
  if ServerCheckClientError epsilonSq serverLoc clientLoc then
    (true,
      { stats with
          CorrectionCount := stats.CorrectionCount + 1,
          AccumulatedClientLocationError :=
            stats.AccumulatedClientLocationError + Vec3.distSq serverLoc clientLoc })
  else
    (false, stats)

/-! ### The mode-pair mutual-exclusivity invariant -/

/-- The spec's `MovementModeState` invariant (§3): the custom submode differs
from `CMOVE_None` only when the primary movement mode is `MOVE_Custom`. -/
def ModeInvariant (s : CharState) : Prop :=
  s.CustomMovementMode ≠ CMOVE_None → s.MovementMode = MOVE_Custom

/-! ### Concrete sample inputs (used by witnesses) -/

/-- Sample saved move: all intent bits cleared, timestamp 0. -/
def sampleMove0 : FSavedMove_SurvivalCharacter :=
  ⟨false, false, false, false, false, false, false, false, false, 0⟩

/-- Sample saved move: all intent bits cleared, timestamp 1/10. -/
def sampleMove1 : FSavedMove_SurvivalCharacter :=
  ⟨false, false, false, false, false, false, false, false, false, 1/10⟩

/-- Sample saved move: sprint bit set, timestamp 1/10. -/
def sampleMoveSprint : FSavedMove_SurvivalCharacter :=
  ⟨false, true, false, false, false, false, false, false, false, 1/10⟩

/-- Sample intent: everything released. -/
def sampleIntent : MovementIntent :=
  ⟨false, false, false, false, false, false, false⟩

/-- Sample probe answers: flat ground, no special surfaces. -/
def sampleProbes : ProbeAnswers :=
  ⟨none, false, false, true, true, none, 0, true, false⟩

/-- Sample starting state: walking on the ground at the origin, at rest. -/
def sampleState : CharState :=
  ⟨MOVE_Walking, CMOVE_None, Vec3.zero, Vec3.zero,
   false, false, false, false, false, false, false, false, false, 0, 0⟩

/-- Sample tick input at 60 Hz. -/
def sampleTickInput : TickInput :=
  ⟨sampleIntent, 1/60, sampleProbes⟩

/-- Sample state moving at 450 cm/s with the slide intent held, eligible for
the slide entry impulse. -/
def sampleSlideState : CharState :=
  ⟨MOVE_Walking, CMOVE_None, Vec3.zero, ⟨450, 0, 0⟩,
   false, false, true, false, false, false, false, false, false, 0, 0⟩

/-- Sample state moving at 750 cm/s with the slide intent held, above the
slide-impulse cap. -/
def sampleFastSlideState : CharState :=
  ⟨MOVE_Walking, CMOVE_None, Vec3.zero, ⟨750, 0, 0⟩,
   false, false, true, false, false, false, false, false, false, 0, 0⟩

/-- Sample state currently sliding. -/
def sampleSlidingState : CharState :=
  ⟨MOVE_Custom, CMOVE_Slide, Vec3.zero, ⟨450, 0, 0⟩,
   true, false, true, false, false, false, false, false, false, 0, 0⟩

/-- Sample mantle probe: wall at 80° from vertical at distance 100, top
surface at 20° steepness, alignment 10°, ledge depth 35, height delta 100. -/
def sampleMantleHit35 : MantleProbe := ⟨100, 80, 20, 10, 35, 100⟩

/-- Sample mantle probe identical to `sampleMantleHit35` but with ledge depth
25, below `MinMantleDepth`. -/
def sampleMantleHit25 : MantleProbe := ⟨100, 80, 20, 10, 25, 100⟩

/-- Probe answers carrying `sampleMantleHit35`. -/
def sampleMantleProbes35 : ProbeAnswers :=
  ⟨some sampleMantleHit35, false, false, false, false, none, 0, true, false⟩

/-- Probe answers carrying `sampleMantleHit25`. -/
def sampleMantleProbes25 : ProbeAnswers :=
  ⟨some sampleMantleHit25, false, false, false, false, none, 0, true, false⟩

/-! ## Theorems -/

set_option maxRecDepth 4096 in
/-- C2: for every byte, decoding, re-encoding the resulting intents and
decoding again gives the same intents as decoding directly; the re-encoded
byte is exactly the byte restricted to the defined mask (the three custom
flags plus the four base bits), and bits outside the defined mask are ignored
on decode (decode is total, so no byte can fault). -/
theorem compressedFlags_roundTrip (b : Fin 256) :
    UpdateFromCompressedFlags (GetCompressedFlags (UpdateFromCompressedFlags b.val))
      = UpdateFromCompressedFlags b.val ∧
    GetCompressedFlags (UpdateFromCompressedFlags b.val) = b.val &&& definedFlagMask ∧
    UpdateFromCompressedFlags (b.val &&& definedFlagMask) = UpdateFromCompressedFlags b.val := by
  revert b
  decide

/-- C3: `CanCombineWith` returns `true` when both moves carry identical custom
intent/flag bits (all nine `Saved_` bit-fields) and the new move's timestamp
is within `maxDelta` of this move's, and returns `false` whenever any of those
bits differ between the two moves. -/
theorem canCombineWith_spec (a b : FSavedMove_SurvivalCharacter) (maxDelta : ℚ) :
    (sameIntentBits a b = true → b.TimeStamp - a.TimeStamp ≤ maxDelta →
      CanCombineWith a b maxDelta = true) ∧
    (sameIntentBits a b = false → CanCombineWith a b maxDelta = false) := by
  constructor
  · intro hbits ht
    simp [CanCombineWith, hbits, ht]
  · intro hbits
    simp [CanCombineWith, hbits]

theorem canCombineWith_spec_witness :
    (sameIntentBits sampleMove0 sampleMove1 = true ∧
      sampleMove1.TimeStamp - sampleMove0.TimeStamp ≤ (1 : ℚ) ∧
      CanCombineWith sampleMove0 sampleMove1 1 = true) ∧
    (sameIntentBits sampleMove0 sampleMoveSprint = false ∧
      CanCombineWith sampleMove0 sampleMoveSprint 1 = false) :=
  ⟨⟨by decide, by norm_num [sampleMove0, sampleMove1],
      (canCombineWith_spec sampleMove0 sampleMove1 1).1 (by decide)
        (by norm_num [sampleMove0, sampleMove1])⟩,
    ⟨by decide,
      (canCombineWith_spec sampleMove0 sampleMoveSprint 1).2 (by decide)⟩⟩

/-! ### Mode-machine helper lemmas -/

theorem exitHook_modes (pm : EMovementMode) (pc : ECustomMovementMode) (s : CharState) :
    (exitHook pm pc s).MovementMode = s.MovementMode ∧
    (exitHook pm pc s).CustomMovementMode = s.CustomMovementMode := by
  unfold exitHook
  cases pm <;> cases pc <;> simp [ExitSlide, ExitProne]

theorem enterHook_modes (pm : EMovementMode) (pc : ECustomMovementMode) (s : CharState) :
    (enterHook pm pc s).MovementMode = s.MovementMode ∧
    (enterHook pm pc s).CustomMovementMode = s.CustomMovementMode := by
  unfold enterHook
  cases hm : s.MovementMode <;> cases hc : s.CustomMovementMode <;>
    simp [hm, hc, EnterSlide, EnterProne]

theorem setMovementMode_modeInvariant (s : CharState) (m : EMovementMode)
    (c : ECustomMovementMode) : ModeInvariant (SetMovementMode s m c) := by
  unfold ModeInvariant SetMovementMode
  by_cases h : m = MOVE_Custom <;> simp [h]

theorem changeMode_modes (s : CharState) (m : EMovementMode) (c : ECustomMovementMode) :
    (ChangeMode s m c).MovementMode = m ∧
    (ChangeMode s m c).CustomMovementMode =
      (if m = MOVE_Custom then c else CMOVE_None) := by
  unfold ChangeMode OnMovementModeChanged
  rw [(enterHook_modes _ _ _).1, (enterHook_modes _ _ _).2,
      (exitHook_modes _ _ _).1, (exitHook_modes _ _ _).2]
  simp [SetMovementMode]

theorem changeMode_modeInvariant (s : CharState) (m : EMovementMode)
    (c : ECustomMovementMode) : ModeInvariant (ChangeMode s m c) := by
  unfold ModeInvariant
  rw [(changeMode_modes s m c).1, (changeMode_modes s m c).2]
  by_cases h : m = MOVE_Custom <;> simp [h]

theorem startClimbOrHang_modeInvariant (s : CharState) (p : ProbeAnswers) :
    ModeInvariant (startClimbOrHang s p) := by
  unfold startClimbOrHang
  split
  · exact changeMode_modeInvariant s MOVE_Custom CMOVE_Hang
  · exact changeMode_modeInvariant s MOVE_Custom CMOVE_Climb

theorem startMantle_modeInvariant (s : CharState) (p : ProbeAnswers) :
    ModeInvariant (startMantle s p) :=
  changeMode_modeInvariant s MOVE_Flying CMOVE_None

theorem startWallRun_modeInvariant (s : CharState) (p : ProbeAnswers) :
    ModeInvariant (startWallRun s p) :=
  changeMode_modeInvariant s MOVE_Custom CMOVE_WallRun

theorem ucsbm_modeInvariant (p : ProbeAnswers) (s : CharState) (h : ModeInvariant s) :
    ModeInvariant (UpdateCharacterStateBeforeMovement p s) := by
  unfold UpdateCharacterStateBeforeMovement
  split
  · exact startClimbOrHang_modeInvariant s p
  split
  · exact startMantle_modeInvariant s p
  split
  · exact startWallRun_modeInvariant s p
  split
  · exact changeMode_modeInvariant s MOVE_Custom CMOVE_Slide
  split
  · exact changeMode_modeInvariant s MOVE_Custom CMOVE_Prone
  · exact h

theorem physSlide_modeInvariant (dt : ℚ) (p : ProbeAnswers) (s : CharState)
    (h : ModeInvariant s) : ModeInvariant (PhysSlide dt p s) := by
  unfold PhysSlide
  split
  · exact changeMode_modeInvariant s MOVE_Walking CMOVE_None
  split
  · exact changeMode_modeInvariant s MOVE_Walking CMOVE_None
  · exact h

theorem physProne_modeInvariant (dt : ℚ) (p : ProbeAnswers) (s : CharState)
    (h : ModeInvariant s) : ModeInvariant (PhysProne dt p s) := by
  unfold PhysProne
  split
  · exact changeMode_modeInvariant s MOVE_Walking CMOVE_None
  · exact h

theorem physWallRun_modeInvariant (dt : ℚ) (p : ProbeAnswers) (s : CharState)
    (h : ModeInvariant s) : ModeInvariant (PhysWallRun dt p s) := by
  unfold PhysWallRun
  split
  · exact changeMode_modeInvariant s MOVE_Falling CMOVE_None
  · exact h

theorem physClimb_modeInvariant (dt : ℚ) (p : ProbeAnswers) (s : CharState)
    (h : ModeInvariant s) : ModeInvariant (PhysClimb dt p s) := by
  unfold PhysClimb
  split
  · exact changeMode_modeInvariant s MOVE_Falling CMOVE_None
  · exact h

theorem physBase_modeInvariant (dt : ℚ) (p : ProbeAnswers) (s : CharState)
    (h : ModeInvariant s) : ModeInvariant (PhysBase dt p s) := by
  unfold PhysBase
  split <;> exact h

theorem physDispatch_modeInvariant (dt : ℚ) (p : ProbeAnswers) (s : CharState)
    (h : ModeInvariant s) : ModeInvariant (PhysDispatch dt p s) := by
  unfold PhysDispatch
  split
  · unfold PhysCustom
    split
    · exact h
    · exact physSlide_modeInvariant dt p s h
    · exact physProne_modeInvariant dt p s h
    · exact physWallRun_modeInvariant dt p s h
    · exact physClimb_modeInvariant dt p s h
    · exact physClimb_modeInvariant dt p s h
  · exact physBase_modeInvariant dt p s h

theorem advanceTick_modeInvariant (inp : TickInput) (s : CharState)
    (h : ModeInvariant s) : ModeInvariant (AdvanceTick inp s) := by
  have h1 : ModeInvariant (applyIntent inp.intent s) := h
  have h2 := ucsbm_modeInvariant inp.probes _ h1
  have h3 := physDispatch_modeInvariant inp.dt inp.probes _ h2
  exact h3

theorem runTicks_modeInvariant (ins : List TickInput) (s : CharState)
    (h : ModeInvariant s) : ModeInvariant (RunTicks ins s) := by
  induction ins generalizing s with
  | nil => exact h
  | cons i is ih => exact ih _ (advanceTick_modeInvariant i s h)

/-- C4: the custom submode is different from `CMOVE_None` only when the
primary movement mode is `MOVE_Custom`: `SetMovementMode` and every full mode
change establish this invariant outright, and every tick-pipeline operation —
the per-tick transition resolution, the per-mode physics dispatch, a whole
tick, and any sequence of ticks — preserves it, so exactly one valid
`(PrimaryMode, CustomSubmode)` pair is active after every tick's transition
resolution. -/
theorem modeState_exclusivity :
    (∀ (s : CharState) (m : EMovementMode) (c : ECustomMovementMode),
      ModeInvariant (SetMovementMode s m c) ∧ ModeInvariant (ChangeMode s m c)) ∧
    (∀ (p : ProbeAnswers) (s : CharState), ModeInvariant s →
      ModeInvariant (UpdateCharacterStateBeforeMovement p s)) ∧
    (∀ (dt : ℚ) (p : ProbeAnswers) (s : CharState), ModeInvariant s →
      ModeInvariant (PhysDispatch dt p s)) ∧
    (∀ (inp : TickInput) (s : CharState), ModeInvariant s →
      ModeInvariant (AdvanceTick inp s)) ∧
    (∀ (ins : List TickInput) (s : CharState), ModeInvariant s →
      ModeInvariant (RunTicks ins s)) :=
  ⟨fun s m c => ⟨setMovementMode_modeInvariant s m c, changeMode_modeInvariant s m c⟩,
   ucsbm_modeInvariant, physDispatch_modeInvariant, advanceTick_modeInvariant,
   runTicks_modeInvariant⟩

theorem modeState_exclusivity_witness :
    ModeInvariant sampleState ∧ ModeInvariant (AdvanceTick sampleTickInput sampleState) :=
  ⟨fun h => absurd rfl h,
   modeState_exclusivity.2.2.2.1 sampleTickInput sampleState (fun h => absurd rfl h)⟩

/-- C5: before the per-mode physics integrator runs, the mode-transition
candidates are evaluated in the fixed precedence order hang/climb, mantle,
wall-run, slide, prone, and the outcome of the once-per-tick
`UpdateCharacterStateBeforeMovement` evaluation is exactly given by the first
candidate in that order whose precondition holds, with the fallback to the
base walk/fall state when none holds. -/
theorem transitionPrecedence_firstMatch (s : CharState) (p : ProbeAnswers) :
    UpdateCharacterStateBeforeMovement p s =
      (match candidatePrecedence.find? (fun c => candidateCond c s p) with
       | some c => applyCandidate c s p
       | none => s) := by
  unfold UpdateCharacterStateBeforeMovement candidatePrecedence
  by_cases h1 : TryClimbOrHangCond s p = true <;>
  by_cases h2 : TryMantle p = true <;>
  by_cases h3 : TryWallRun s p = true <;>
  by_cases h4 : CanSlide s p = true <;>
  by_cases h5 : CanProne s = true <;>
  simp [List.find?, candidateCond, applyCandidate, h1, h2, h3, h4, h5]

/-! ### Determinism of the tick pipeline -/

theorem physStep_eq {dt : ℚ} {p : ProbeAnswers} {s s' : CharState}
    (h : PhysStep dt p s s') : s' = PhysDispatch dt p s := by
  cases h with
  | slide h1 h2 => simp [PhysDispatch, PhysCustom, h1, h2]
  | prone h1 h2 => simp [PhysDispatch, PhysCustom, h1, h2]
  | wallRun h1 h2 => simp [PhysDispatch, PhysCustom, h1, h2]
  | hang h1 h2 => simp [PhysDispatch, PhysCustom, h1, h2]
  | climb h1 h2 => simp [PhysDispatch, PhysCustom, h1, h2]
  | customNone h1 h2 => simp [PhysDispatch, PhysCustom, h1, h2]
  | base h1 => simp [PhysDispatch, h1]

theorem physStep_dispatch (dt : ℚ) (p : ProbeAnswers) (s : CharState) :
    PhysStep dt p s (PhysDispatch dt p s) := by
  by_cases h1 : s.MovementMode = MOVE_Custom
  · cases h2 : s.CustomMovementMode with
    | CMOVE_None => simpa [PhysDispatch, PhysCustom, h1, h2] using PhysStep.customNone s h1 h2
    | CMOVE_Slide => simpa [PhysDispatch, PhysCustom, h1, h2] using PhysStep.slide s h1 h2
    | CMOVE_Prone => simpa [PhysDispatch, PhysCustom, h1, h2] using PhysStep.prone s h1 h2
    | CMOVE_WallRun => simpa [PhysDispatch, PhysCustom, h1, h2] using PhysStep.wallRun s h1 h2
    | CMOVE_Hang => simpa [PhysDispatch, PhysCustom, h1, h2] using PhysStep.hang s h1 h2
    | CMOVE_Climb => simpa [PhysDispatch, PhysCustom, h1, h2] using PhysStep.climb s h1 h2
  · simpa [PhysDispatch, h1] using PhysStep.base s h1

theorem tickStep_eq {inp : TickInput} {s s' : CharState} (h : TickStep inp s s') :
    s' = AdvanceTick inp s := by
  cases h with
  | mk s3 hp =>
    have h3 := physStep_eq hp
    subst h3
    rfl

theorem tickStep_advanceTick (inp : TickInput) (s : CharState) :
    TickStep inp s (AdvanceTick inp s) :=
  TickStep.mk _ (physStep_dispatch inp.dt inp.probes _)

theorem tickRun_deterministic {s : CharState} {ins : List TickInput} {r1 r2 : CharState}
    (h1 : TickRun s ins r1) (h2 : TickRun s ins r2) : r1 = r2 := by
  induction h1 generalizing r2 with
  | nil s => cases h2 with | nil => rfl
  | cons hstep hrun ih =>
    cases h2 with
    | cons hstep2 hrun2 =>
      have he := (tickStep_eq hstep).trans (tickStep_eq hstep2).symm
      rw [← he] at hrun2
      exact ih hrun2

/-- C1: advancing the tick pipeline (transition evaluation in
`UpdateCharacterStateBeforeMovement` followed by the per-mode integrator
dispatched by `PhysCustom`) on two independent instances from the same
starting state, through the same sequence of movement intents and deltaTime
values with fixed deterministic world-query answers, yields identical end
states — in particular identical position, velocity, and movement-mode
pair. -/
theorem tickPipeline_deterministic (s : CharState) (ins : List TickInput)
    (r1 r2 : CharState) (h1 : TickRun s ins r1) (h2 : TickRun s ins r2) :
    r1.Position = r2.Position ∧ r1.Velocity = r2.Velocity ∧
    r1.MovementMode = r2.MovementMode ∧
    r1.CustomMovementMode = r2.CustomMovementMode ∧ r1 = r2 := by
  have h := tickRun_deterministic h1 h2
  subst h
  exact ⟨rfl, rfl, rfl, rfl, rfl⟩

theorem tickPipeline_deterministic_witness :
    TickRun sampleState [sampleTickInput] (AdvanceTick sampleTickInput sampleState) ∧
    AdvanceTick sampleTickInput sampleState = AdvanceTick sampleTickInput sampleState :=
  ⟨TickRun.cons (tickStep_advanceTick sampleTickInput sampleState) (TickRun.nil _),
   (tickPipeline_deterministic sampleState [sampleTickInput] _ _
      (TickRun.cons (tickStep_advanceTick sampleTickInput sampleState) (TickRun.nil _))
      (TickRun.cons (tickStep_advanceTick sampleTickInput sampleState)
        (TickRun.nil _))).2.2.2.2⟩

/-- C6: `StartDash` with no active cooldown (no prior dash, or at least
`DashCooldownDuration` elapsed since the previous dash) immediately performs
the dash; called before the initiating side's cooldown has elapsed it does
not dash immediately but defers to a retry; the authoritative side accepts a
reported dash exactly when the elapsed time since the previous dash is at
least `AuthDashCooldownDuration`, which is strictly shorter than the
initiating side's `DashCooldownDuration` (0.9 s vs 1.0 s). -/
theorem dashCooldown_spec :
    (∀ now : ℚ, StartDash now none = DashAttemptResult.performed) ∧
    (∀ now t0 : ℚ, DashCooldownDuration ≤ now - t0 →
      StartDash now (some t0) = DashAttemptResult.performed) ∧
    (∀ now t0 : ℚ, now - t0 < DashCooldownDuration →
      StartDash now (some t0) = DashAttemptResult.deferredRetry) ∧
    (∀ now t0 : ℚ, ServerAcceptsDash now (some t0) = true ↔
      AuthDashCooldownDuration ≤ now - t0) ∧
    AuthDashCooldownDuration < DashCooldownDuration := by
  refine ⟨fun now => rfl, fun now t0 h => ?_, fun now t0 h => ?_, fun now t0 => ?_, ?_⟩
  · simp [StartDash, h]
  · simp [StartDash, not_le.mpr h]
  · simp [ServerAcceptsDash]
  · norm_num [AuthDashCooldownDuration, DashCooldownDuration]

theorem dashCooldown_spec_witness :
    StartDash 0 none = DashAttemptResult.performed ∧
    ((1 : ℚ)/2 - 0 < DashCooldownDuration ∧
      StartDash (1/2) (some 0) = DashAttemptResult.deferredRetry) ∧
    (AuthDashCooldownDuration ≤ (19 : ℚ)/20 - 0 ∧
      ServerAcceptsDash (19/20) (some 0) = true) :=
  ⟨dashCooldown_spec.1 0,
   ⟨by norm_num [DashCooldownDuration],
    dashCooldown_spec.2.2.1 (1/2) 0 (by norm_num [DashCooldownDuration])⟩,
   ⟨by norm_num [AuthDashCooldownDuration],
    (dashCooldown_spec.2.2.2.1 (19/20) 0).mpr
      (by norm_num [AuthDashCooldownDuration])⟩⟩

/-- C7: slide entry requires the slide intent, a valid floor and horizontal
speed at least `MinSlideSpeed`; on entry the character is put in the Slide
custom mode, and the one-time `SlideEnterImpulse` is applied if and only if
the pre-entry speed is at most `MaxSlideImpulseSpeed` — above that cap the
velocity is left untouched (slide still entered); when applied the impulse
strictly increases the horizontal speed. -/
theorem slideEntryImpulse_spec :
    (∀ (s : CharState) (p : ProbeAnswers),
      CanSlide s p = true ↔
        (s.Safe_bWantsToSlide = true ∧ p.ValidFloor = true ∧
          sq MinSlideSpeed ≤ Vec3.sizeSq2D s.Velocity)) ∧
    (∀ (pm : EMovementMode) (pc : ECustomMovementMode) (s : CharState),
      Vec3.sizeSq2D s.Velocity ≤ sq MaxSlideImpulseSpeed →
        (EnterSlide pm pc s).Velocity = slideImpulseVelocity s.Velocity) ∧
    (∀ (pm : EMovementMode) (pc : ECustomMovementMode) (s : CharState),
      sq MaxSlideImpulseSpeed < Vec3.sizeSq2D s.Velocity →
        (EnterSlide pm pc s).Velocity = s.Velocity) ∧
    (∀ v : Vec3, 0 < Vec3.sizeSq2D v →
      Vec3.sizeSq2D v < Vec3.sizeSq2D (slideImpulseVelocity v)) ∧
    (∀ (s : CharState) (p : ProbeAnswers),
      (startSlide s p).MovementMode = MOVE_Custom ∧
      (startSlide s p).CustomMovementMode = CMOVE_Slide) := by
  refine ⟨fun s p => ?_, fun pm pc s h => ?_, fun pm pc s h => ?_, fun v h => ?_,
    fun s p => ?_⟩
  · simp [CanSlide, and_assoc]
  · simp [EnterSlide, h]
  · simp [EnterSlide, not_le.mpr h]
  · unfold slideImpulseVelocity Vec3.scale2D Vec3.sizeSq2D at *
    norm_num [SlideEnterImpulse, MaxSlideImpulseSpeed]
    nlinarith [h]
  · unfold startSlide
    have hc := changeMode_modes s MOVE_Custom CMOVE_Slide
    simpa using hc

theorem slideEntryImpulse_spec_witness :
    (CanSlide sampleSlideState sampleProbes = true ∧
      Vec3.sizeSq2D sampleSlideState.Velocity ≤ sq MaxSlideImpulseSpeed ∧
      (EnterSlide MOVE_Walking CMOVE_None sampleSlideState).Velocity =
        slideImpulseVelocity sampleSlideState.Velocity) ∧
    (CanSlide sampleFastSlideState sampleProbes = true ∧
      sq MaxSlideImpulseSpeed < Vec3.sizeSq2D sampleFastSlideState.Velocity ∧
      (EnterSlide MOVE_Walking CMOVE_None sampleFastSlideState).Velocity =
        sampleFastSlideState.Velocity) ∧
    (startSlide sampleSlideState sampleProbes).MovementMode = MOVE_Custom ∧
    (startSlide sampleSlideState sampleProbes).CustomMovementMode = CMOVE_Slide :=
  ⟨⟨(slideEntryImpulse_spec.1 sampleSlideState sampleProbes).mpr
      (by refine ⟨rfl, rfl, ?_⟩
          norm_num [sampleSlideState, Vec3.sizeSq2D, sq, MinSlideSpeed]),
    by norm_num [sampleSlideState, Vec3.sizeSq2D, sq, MaxSlideImpulseSpeed],
    slideEntryImpulse_spec.2.1 MOVE_Walking CMOVE_None sampleSlideState
      (by norm_num [sampleSlideState, Vec3.sizeSq2D, sq, MaxSlideImpulseSpeed])⟩,
   ⟨(slideEntryImpulse_spec.1 sampleFastSlideState sampleProbes).mpr
      (by refine ⟨rfl, rfl, ?_⟩
          norm_num [sampleFastSlideState, Vec3.sizeSq2D, sq, MinSlideSpeed]),
    by norm_num [sampleFastSlideState, Vec3.sizeSq2D, sq, MaxSlideImpulseSpeed],
    slideEntryImpulse_spec.2.2.1 MOVE_Walking CMOVE_None sampleFastSlideState
      (by norm_num [sampleFastSlideState, Vec3.sizeSq2D, sq, MaxSlideImpulseSpeed])⟩,
   slideEntryImpulse_spec.2.2.2.2 sampleSlideState sampleProbes⟩

/-- C8: a correction is emitted if and only if the server-replayed position
differs from the client-reported position by more than the epsilon threshold
(squared comparison); each emitted correction increments `CorrectionCount` by
exactly 1 and accumulates the error magnitude; within epsilon no correction is
emitted and the counters are unchanged. -/
theorem correction_issuance_spec (epsilonSq : ℚ) (serverLoc clientLoc : Vec3)
    (stats : SimulationStats) :
    ((ReconcileMove epsilonSq serverLoc clientLoc stats).1 = true ↔
      epsilonSq < Vec3.distSq serverLoc clientLoc) ∧
    ((ReconcileMove epsilonSq serverLoc clientLoc stats).1 = true →
      (ReconcileMove epsilonSq serverLoc clientLoc stats).2.CorrectionCount =
        stats.CorrectionCount + 1) ∧
    ((ReconcileMove epsilonSq serverLoc clientLoc stats).1 = false →
      (ReconcileMove epsilonSq serverLoc clientLoc stats).2 = stats) := by
  unfold ReconcileMove ServerCheckClientError
  by_cases h : epsilonSq < Vec3.distSq serverLoc clientLoc <;> simp [h]

theorem correction_issuance_spec_witness :
    ((ReconcileMove 1 Vec3.zero ⟨2, 0, 0⟩ ⟨0, 0, 0⟩).1 = true ∧
      (ReconcileMove 1 Vec3.zero ⟨2, 0, 0⟩ ⟨0, 0, 0⟩).2.CorrectionCount = 1) ∧
    ((ReconcileMove 1 Vec3.zero ⟨1/2, 0, 0⟩ ⟨0, 0, 0⟩).1 = false ∧
      (ReconcileMove 1 Vec3.zero ⟨1/2, 0, 0⟩ ⟨0, 0, 0⟩).2 = ⟨0, 0, 0⟩) := by
  constructor
  · have hemit : (ReconcileMove 1 Vec3.zero ⟨2, 0, 0⟩ ⟨0, 0, 0⟩).1 = true :=
      (correction_issuance_spec 1 Vec3.zero ⟨2, 0, 0⟩ ⟨0, 0, 0⟩).1.mpr
        (by norm_num [Vec3.distSq, Vec3.zero])
    refine ⟨hemit, ?_⟩
    have := (correction_issuance_spec 1 Vec3.zero ⟨2, 0, 0⟩ ⟨0, 0, 0⟩).2.1 hemit
    simpa using this
  · have hquiet : (ReconcileMove 1 Vec3.zero ⟨1/2, 0, 0⟩ ⟨0, 0, 0⟩).1 = false := by
      have hiff := (correction_issuance_spec 1 Vec3.zero ⟨1/2, 0, 0⟩ ⟨0, 0, 0⟩).1
      cases hb : (ReconcileMove 1 Vec3.zero ⟨1/2, 0, 0⟩ ⟨0, 0, 0⟩).1
      · rfl
      · exact absurd (hiff.mp hb) (by norm_num [Vec3.distSq, Vec3.zero])
    exact ⟨hquiet,
      (correction_issuance_spec 1 Vec3.zero ⟨1/2, 0, 0⟩ ⟨0, 0, 0⟩).2.2 hquiet⟩

/-- C9: `TryMantle` succeeds exactly when the forward probe hit exists within
`MantleMaxDistance`, the wall's angle from vertical lies in
`[MantleMinWallSteepnessAngle, 90]`, the top surface's steepness is at most
`MantleMaxSurfaceAngle`, its facing alignment is within
`MantleMaxAlignmentAngle`, and the usable ledge depth is at least
`MinMantleDepth`; with no forward hit it fails. -/
theorem tryMantle_spec (p : ProbeAnswers) (hit : MantleProbe) :
    (p.MantleHit = some hit →
      (TryMantle p = true ↔
        (hit.Distance ≤ MantleMaxDistance ∧
          MantleMinWallSteepnessAngle ≤ hit.WallSteepnessAngle ∧
          hit.WallSteepnessAngle ≤ 90 ∧
          hit.SurfaceAngle ≤ MantleMaxSurfaceAngle ∧
          hit.AlignmentAngle ≤ MantleMaxAlignmentAngle ∧
          MinMantleDepth ≤ hit.LedgeDepth))) ∧
    (p.MantleHit = none → TryMantle p = false) := by
  constructor
  · intro h
    simp [TryMantle, h, and_assoc]
  · intro h
    simp [TryMantle, h]

theorem tryMantle_spec_witness :
    (sampleMantleProbes35.MantleHit = some sampleMantleHit35 ∧
      TryMantle sampleMantleProbes35 = true) ∧
    (sampleMantleProbes25.MantleHit = some sampleMantleHit25 ∧
      TryMantle sampleMantleProbes25 = false) := by
  constructor
  · refine ⟨rfl, ?_⟩
    exact ((tryMantle_spec sampleMantleProbes35 sampleMantleHit35).1 rfl).mpr
      (by norm_num [sampleMantleHit35, MantleMaxDistance, MantleMinWallSteepnessAngle,
        MantleMaxSurfaceAngle, MantleMaxAlignmentAngle, MinMantleDepth])
  · refine ⟨rfl, ?_⟩
    have hiff := (tryMantle_spec sampleMantleProbes25 sampleMantleHit25).1 rfl
    cases hb : TryMantle sampleMantleProbes25
    · rfl
    · exact absurd (hiff.mp hb)
        (by norm_num [sampleMantleHit25, MinMantleDepth])

/-- C10: `IsMovingOnGround` returns true exactly when the base integrator's
ground query holds or the character is in the Slide or Prone custom movement
modes: slide and prone count as on ground at the public query interface. -/
theorem isMovingOnGround_spec (s : CharState) :
    IsMovingOnGround s =
      (SuperIsMovingOnGround s || IsCustomMovementMode s CMOVE_Slide ||
        IsCustomMovementMode s CMOVE_Prone) ∧
    (SuperIsMovingOnGround s = true → IsMovingOnGround s = true) ∧
    (s.MovementMode = MOVE_Custom → s.CustomMovementMode = CMOVE_Slide →
      IsMovingOnGround s = true) ∧
    (s.MovementMode = MOVE_Custom → s.CustomMovementMode = CMOVE_Prone →
      IsMovingOnGround s = true) := by
  refine ⟨rfl, ?_, ?_, ?_⟩
  · intro h
    simp [IsMovingOnGround, h]
  · intro h1 h2
    simp [IsMovingOnGround, IsCustomMovementMode, h1, h2]
  · intro h1 h2
    simp [IsMovingOnGround, IsCustomMovementMode, h1, h2]

theorem isMovingOnGround_spec_witness :
    sampleSlidingState.MovementMode = MOVE_Custom ∧
    sampleSlidingState.CustomMovementMode = CMOVE_Slide ∧
    IsMovingOnGround sampleSlidingState = true :=
  ⟨rfl, rfl, (isMovingOnGround_spec sampleSlidingState).2.2.1 rfl rfl⟩

end Zippy
